import Mathlib

/-!
Verification development for the ElevenLabs demo repository
(`src/main.py`, `src/simple_example.py`).

The repository is orchestration glue around a remote text-to-speech
service.  We embed it shallowly:

* Python floats that are only passed through (voice-tuning knobs) are
  modelled as rationals `ℚ` — the code performs no arithmetic on them.
* Audio byte buffers are `List Nat`; streamed audio is `List (List Nat)`.
* The remote service (the vendor SDK client) is an oracle record
  `RemoteService`: a listing response and synthesis responses, each an
  `Except String _` where `Except.error` models a raised exception.
* Each demo operation is embedded as a function from the oracle and its
  arguments to the list of observable effects it performs (console
  lines, synthesis calls issued, files written, audio played).  Python
  `raise` inside a `try` block is modelled by the `match` on the
  oracle's `Except` result; operations that catch exceptions at their
  boundary therefore return a plain effect trace.
* Console lines are reproduced from the source; quote characters inside
  message strings are written with the `\x27` escape.
-/

/-- Voice record as returned by the remote listing endpoint
(`client.voices.get_all().voices` elements): identifier, display name,
category and optional description. -/
structure VoiceRecord where
  voice_id : String
  name : String
  category : String
  description : Option String
deriving Repr, DecidableEq

/-- Voice-tuning knobs (`VoiceSettings(stability=…, similarity_boost=…,
style=…, use_speaker_boost=…)`).  Floats are modelled as `ℚ` since the
code only forwards them. -/
structure VoiceSettings where
  stability : ℚ
  similarity_boost : ℚ
  style : ℚ
  use_speaker_boost : Bool
deriving Repr, DecidableEq

/-- Voice argument built locally for a synthesis request: either
`Voice(name=…)` or `Voice(voice_id=…, settings=…)`. -/
structure VoiceArg where
  voice_id : Option String := none
  name : Option String := none
  settings : Option VoiceSettings := none
deriving Repr, DecidableEq

/-- Synthesis request assembled by each operation and handed to
`client.generate`: text, voice argument, model selector string, and the
streaming flag (`stream=True` when present, default `False`). -/
structure GenRequest where
  text : String
  voice : VoiceArg
  model : String
  stream : Bool := false
deriving Repr, DecidableEq

/-- Observable effect of a demo operation: a console line, a synthesis
call issued to the remote service, a file written, a complete audio
buffer played, or a chunk sequence handed to the streaming playback
sink. -/
inductive Effect where
  | print (line : String)
  | genCall (req : GenRequest)
  | saveFile (path : String) (data : List Nat)
  | playAudio (data : List Nat)
  | streamPlay (chunks : List (List Nat))
deriving Repr, DecidableEq

/-- Oracle for the remote service and its SDK client: the response of
the voice-listing endpoint and of the (complete and streaming)
synthesis calls.  `Except.error msg` models the SDK raising an
exception with message `msg`. -/
structure RemoteService where
  getAll : Except String (List VoiceRecord)
  generate : GenRequest → Except String (List Nat)
  generateStream : GenRequest → Except String (List (List Nat))

/-- Client handle (`ElevenLabs(api_key=…)`); it only retains the
credential. -/
structure Client where
  api_key : String
deriving Repr, DecidableEq

/-- Error message of the `ValueError` raised by
`ElevenLabsDemo.__init__` on a missing credential. -/
def apiKeyRequiredMsg : String :=
  "API key is required. Set ELEVENLABS_API_KEY environment variable or pass api_key parameter"

/-- Embeds `ElevenLabsDemo.__init__` (src/main.py lines 32-43):
`self.api_key = api_key or os.getenv('ELEVENLABS_API_KEY')`, then
`if not self.api_key: raise ValueError(…)`, then construction of the
client handle.  `env` is the value of the `ELEVENLABS_API_KEY`
environment variable (`none` when unset).  Python truthiness of an
`Optional[str]` is: `None` and `""` are falsy. -/
def demoInit (api_key env : Option String) : Except String Client :=
  let resolved : Option String :=
    match api_key with
    | some s => if s = "" then env else some s
    | none => env
  match resolved with
  | none => Except.error apiKeyRequiredMsg
  | some s => if s = "" then Except.error apiKeyRequiredMsg else Except.ok ⟨s⟩

/-- Embeds the module-level client construction of
`src/simple_example.py` lines 13-15:
`ElevenLabs(api_key=os.getenv('ELEVENLABS_API_KEY', 'YOUR_API_KEY'))`.
Python `os.getenv(var, default)` returns the default only when the
variable is unset (an empty value is returned as is).  The module has
no credential check, so construction never fails. -/
def simpleExampleInit (env : Option String) : Except String Client :=
  Except.ok ⟨env.getD "YOUR_API_KEY"⟩

/-- C1: constructing the runner with no `api_key` argument while
`ELEVENLABS_API_KEY` is unset or empty raises the configuration
`ValueError` and yields no client; any non-empty credential from
either source makes construction succeed with a client holding that
credential. -/
theorem demoInit_credential_spec (api_key env : Option String) :
    (api_key = none → (env = none ∨ env = some "") →
        demoInit api_key env = Except.error apiKeyRequiredMsg) ∧
    (∀ k, api_key = some k → k ≠ "" → demoInit api_key env = Except.ok ⟨k⟩) ∧
    (∀ v, api_key = none → env = some v → v ≠ "" →
        demoInit api_key env = Except.ok ⟨v⟩) := by
  refine ⟨?_, ?_, ?_⟩
  · rintro rfl (rfl | rfl) <;> rfl
  · rintro k rfl hk
    simp [demoInit, hk]
  · rintro v rfl rfl hv
    simp [demoInit, hv]

/-- Witness for C1 at concrete inputs: construction fails with both
sources absent and succeeds with an explicit key. -/
theorem demoInit_credential_spec_witness :
    demoInit none none = Except.error apiKeyRequiredMsg ∧
    demoInit (some "test-key") none = Except.ok ⟨"test-key"⟩ := by
  refine ⟨(demoInit_credential_spec none none).1 rfl (Or.inl rfl), ?_⟩
  exact (demoInit_credential_spec (some "test-key") none).2.1 "test-key" rfl (by decide)

/-- C9: an explicitly passed empty-string `api_key` behaves exactly like
an absent one — `api_key or os.getenv(…)` consults the environment
whenever the parameter is falsy — and a non-empty explicit parameter
takes precedence over any environment value. -/
theorem demoInit_empty_param_like_absent (env : Option String) :
    demoInit (some "") env = demoInit none env ∧
    (∀ k, k ≠ "" → demoInit (some k) env = Except.ok ⟨k⟩) := by
  constructor
  · rfl
  · intro k hk
    simp [demoInit, hk]

/-- Witness for C9: with an empty explicit key the environment value is
used, and a non-empty explicit key wins over the environment. -/
theorem demoInit_empty_param_like_absent_witness :
    demoInit (some "") (some "env-key") = demoInit none (some "env-key") ∧
    demoInit (some "param-key") (some "env-key") = Except.ok ⟨"param-key"⟩ := by
  refine ⟨(demoInit_empty_param_like_absent (some "env-key")).1, ?_⟩
  exact (demoInit_empty_param_like_absent (some "env-key")).2 "param-key" (by decide)

/-- C10: the simple-example script never raises a configuration error:
its module-level client construction succeeds for every environment,
and with the variable unset the client holds the literal placeholder
"YOUR_API_KEY"; the missing-credential check exists only on the
`ElevenLabsDemo` path. -/
theorem simpleExampleInit_never_fails (env : Option String) :
    (∃ c, simpleExampleInit env = Except.ok c) ∧
    (env = none → simpleExampleInit env = Except.ok ⟨"YOUR_API_KEY"⟩) ∧
    demoInit none none = Except.error apiKeyRequiredMsg := by
  refine ⟨⟨⟨env.getD "YOUR_API_KEY"⟩, rfl⟩, ?_, rfl⟩
  rintro rfl
  rfl

/-- Witness for C10 with the environment variable unset. -/
theorem simpleExampleInit_never_fails_witness :
    simpleExampleInit none = Except.ok ⟨"YOUR_API_KEY"⟩ :=
  (simpleExampleInit_never_fails none).2.1 rfl

/-- Python `x or default` on an optional string, used for
`voice.description or 'N/A'`. -/
def pyOrStr (s : Option String) (d : String) : String :=
  match s with
  | some v => if v = "" then d else v
  | none => d

/-- Python `str.lower()`: charwise lowercasing (ASCII letters are the
only ones occurring here). -/
def pyLower (s : String) : String := ⟨s.data.map Char.toLower⟩

/-- Synthesis request of `basic_tts` and of each `demo_multiple_voices`
iteration: `client.generate(text=…, voice=Voice(name=voice_name),
model="eleven_monolingual_v1")`. -/
def basicReq (text voice_name : String) : GenRequest :=
  { text := text, voice := { name := some voice_name }, model := "eleven_monolingual_v1" }

/-- Synthesis request of `advanced_tts_with_settings`:
`Voice(voice_id=…, settings=VoiceSettings(…))` with model
`"eleven_multilingual_v2"`. -/
def advancedReq (text voice_id : String) (stability similarity_boost style : ℚ)
    (use_speaker_boost : Bool) : GenRequest :=
  { text := text,
    voice := { voice_id := some voice_id,
               settings := some { stability := stability,
                                  similarity_boost := similarity_boost,
                                  style := style,
                                  use_speaker_boost := use_speaker_boost } },
    model := "eleven_multilingual_v2" }

/-- Synthesis request of `streaming_tts`: `Voice(name=voice_name)`,
model `"eleven_turbo_v2"`, `stream=True`. -/
def streamReq (text voice_name : String) : GenRequest :=
  { text := text, voice := { name := some voice_name },
    model := "eleven_turbo_v2", stream := true }

/-- Console block printed for one voice by `list_voices`. -/
def voicePrintBlock (v : VoiceRecord) : List Effect :=
  [Effect.print ("🗣️  " ++ v.name),
   Effect.print ("   ID: " ++ v.voice_id),
   Effect.print ("   类别: " ++ v.category),
   Effect.print ("   描述: " ++ pyOrStr v.description "N/A"),
   Effect.print ""]

/-- Embeds `ElevenLabsDemo.list_voices` (src/main.py lines 45-65): calls
the listing endpoint and prints every voice.  The endpoint error (if
any) propagates to the caller; the effects performed before the raise
are still returned. -/
def list_voices (svc : RemoteService) : List Effect × Except String (List VoiceRecord) :=
  match svc.getAll with
  | Except.error e => ([Effect.print "📋 获取可用语音列表..."], Except.error e)
  | Except.ok vs =>
      ([Effect.print "📋 获取可用语音列表...",
        Effect.print ("\n找到 " ++ toString vs.length ++ " 个可用语音:"),
        Effect.print (String.mk (List.replicate 50 '-'))] ++
       vs.flatMap voicePrintBlock,
       Except.ok vs)

/-- Embeds `ElevenLabsDemo.basic_tts` (src/main.py lines 67-96):
generate with the default model, save to `output_file`, play; any
exception is caught at the operation boundary and logged. -/
def basic_tts (svc : RemoteService) (text voice_name output_file : String) : List Effect :=
  [Effect.print ("🔊 基础文本转语音: \x27" ++ text.take 50 ++ "...\x27"),
   Effect.print ("📢 使用语音: " ++ voice_name)] ++
  match svc.generate (basicReq text voice_name) with
  | Except.ok audio =>
      [Effect.genCall (basicReq text voice_name),
       Effect.saveFile output_file audio,
       Effect.print ("✅ 音频已保存到: " ++ output_file),
       Effect.print "🎵 播放音频...",
       Effect.playAudio audio]
  | Except.error e =>
      [Effect.genCall (basicReq text voice_name),
       Effect.print ("❌ 错误: " ++ e)]

/-- Embeds `ElevenLabsDemo.advanced_tts_with_settings` (src/main.py
lines 98-149): builds `Voice(voice_id=…, settings=…)` with the tuning
values exactly as given (no validation or normalization), generates
with the multilingual model, saves and plays; exceptions are caught and
logged. -/
def advanced_tts_with_settings (svc : RemoteService) (text voice_id : String)
    (stability similarity_boost style : ℚ) (use_speaker_boost : Bool)
    (output_file : String) : List Effect :=
  [Effect.print "🎛️  高级文本转语音设置:",
   Effect.print ("   稳定性: " ++ toString stability),
   Effect.print ("   相似度增强: " ++ toString similarity_boost),
   Effect.print ("   风格: " ++ toString style),
   Effect.print ("   扬声器增强: " ++ toString use_speaker_boost)] ++
  match svc.generate (advancedReq text voice_id stability similarity_boost style use_speaker_boost) with
  | Except.ok audio =>
      [Effect.genCall (advancedReq text voice_id stability similarity_boost style use_speaker_boost),
       Effect.saveFile output_file audio,
       Effect.print ("✅ 高级音频已保存到: " ++ output_file),
       Effect.playAudio audio]
  | Except.error e =>
      [Effect.genCall (advancedReq text voice_id stability similarity_boost style use_speaker_boost),
       Effect.print ("❌ 错误: " ++ e)]

/-- Embeds `ElevenLabsDemo.streaming_tts` (src/main.py lines 151-176):
generates with `stream=True` and the turbo model and hands the returned
chunk sequence unchanged to the `stream(…)` playback sink; exceptions
are caught and logged. -/
def streaming_tts (svc : RemoteService) (text voice_name : String) : List Effect :=
  [Effect.print ("🌊 流式文本转语音: \x27" ++ text.take 50 ++ "...\x27"),
   Effect.print "🎵 实时播放中..."] ++
  match svc.generateStream (streamReq text voice_name) with
  | Except.ok chunks =>
      [Effect.genCall (streamReq text voice_name),
       Effect.streamPlay chunks,
       Effect.print "✅ 流式播放完成"]
  | Except.error e =>
      [Effect.genCall (streamReq text voice_name),
       Effect.print ("❌ 错误: " ++ e)]

/-- Linear scan of `get_voice_by_name` (src/main.py lines 189-192):
first voice whose lowercased name equals the lowercased query, else
`None`. -/
def findVoice (voice_name : String) : List VoiceRecord → Option VoiceRecord
  | [] => none
  | v :: rest =>
      if pyLower v.name = pyLower voice_name then some v else findVoice voice_name rest

/-- Embeds `ElevenLabsDemo.get_voice_by_name` (src/main.py lines
178-192): fetches the listing (an endpoint error propagates) and scans
it case-insensitively. -/
def get_voice_by_name (svc : RemoteService) (voice_name : String) :
    Except String (Option VoiceRecord) :=
  match svc.getAll with
  | Except.error e => Except.error e
  | Except.ok vs => Except.ok (findVoice voice_name vs)

/-- Hardcoded voice list of `demo_multiple_voices` (src/main.py line
204). -/
def demo_voices : List String := ["Rachel", "Drew", "Clyde", "Paul"]

/-- Output path written for voice number `i` (1-based) named
`voice_name` by `demo_multiple_voices`:
`f"demo_voice_{i}_{voice_name.lower()}.mp3"`. -/
def demoVoicePath (i : Nat) (voice_name : String) : String :=
  "demo_voice_" ++ toString i ++ "_" ++ pyLower voice_name ++ ".mp3"

/-- One iteration of the `demo_multiple_voices` loop (src/main.py lines
206-224): announce the voice, generate with the default model, save to
the index/name-derived path; a failure is caught and logged so the loop
continues. -/
def demoVoiceStep (svc : RemoteService) (text : String) (i : Nat) (voice_name : String) :
    List Effect :=
  Effect.print ("\n🗣️  语音 " ++ toString i ++ ": " ++ voice_name) ::
  match svc.generate (basicReq text voice_name) with
  | Except.ok audio =>
      [Effect.genCall (basicReq text voice_name),
       Effect.saveFile (demoVoicePath i voice_name) audio,
       Effect.print ("   💾 保存到: " ++ demoVoicePath i voice_name)]
  | Except.error e =>
      [Effect.genCall (basicReq text voice_name),
       Effect.print ("   ❌ 语音 " ++ voice_name ++ " 失败: " ++ e)]

/-- The `for i, voice_name in enumerate(demo_voices, 1)` loop of
`demo_multiple_voices`, over an arbitrary remaining list with the
current 1-based index. -/
def demoLoop (svc : RemoteService) (text : String) : Nat → List String → List Effect
  | _, [] => []
  | i, v :: rest => demoVoiceStep svc text i v ++ demoLoop svc text (i + 1) rest

/-- Embeds `ElevenLabsDemo.demo_multiple_voices` (src/main.py lines
194-224): iterates the hardcoded `demo_voices` list with 1-based
enumeration. -/
def demo_multiple_voices (svc : RemoteService) (text : String) : List Effect :=
  Effect.print ("🎭 多语音演示: \x27" ++ text ++ "\x27") :: demoLoop svc text 1 demo_voices

/-- Embeds `main` (src/main.py lines 227-287): banner, runner
construction with no explicit key, then the five demo scenarios in
order and the completion messages.  The `except ValueError` branch
(configuration error) catches the construction failure; any error
propagating out of `list_voices` lands in the generic
`except Exception` branch.  The numeric arguments 0.7, 0.8, 0.2 of the
advanced demo are the rationals 7/10, 4/5, 1/5. -/
def mainDemo (svc : RemoteService) (env : Option String) : List Effect :=
  [Effect.print "🎬 ElevenLabs API Python Demo",
   Effect.print (String.mk (List.replicate 40 '='))] ++
  match demoInit none env with
  | Except.error e =>
      [Effect.print ("❌ 配置错误: " ++ e),
       Effect.print "\n🔧 设置说明:",
       Effect.print "1. 获取 ElevenLabs API 密钥: https://elevenlabs.io/",
       Effect.print "2. 设置环境变量: export ELEVENLABS_API_KEY=\x27your_api_key\x27",
       Effect.print "3. 或者在代码中直接传入 api_key 参数"]
  | Except.ok _client =>
      Effect.print "\n1️⃣  演示：列出可用语音" ::
      match list_voices svc with
      | (effs, Except.error e) => effs ++ [Effect.print ("❌ 意外错误: " ++ e)]
      | (effs, Except.ok voices) =>
          effs ++
          (Effect.print "\n2️⃣  演示：基础文本转语音" ::
           basic_tts svc
             "Hello! This is a demonstration of ElevenLabs text-to-speech API. The quality is quite impressive!"
             "Rachel" "demo_basic.mp3") ++
          (match voices with
           | [] => []
           | first_voice :: _ =>
               Effect.print "\n3️⃣  演示：高级设置文本转语音" ::
               advanced_tts_with_settings svc
                 "This is an advanced example with custom voice settings. Notice the difference in tone and style."
                 first_voice.voice_id (7/10) (4/5) (1/5) true "demo_advanced.mp3") ++
          (Effect.print "\n4️⃣  演示：流式文本转语音" ::
           streaming_tts svc
             "This is a streaming example. The audio should play in real-time as it\x27s being generated."
             "Rachel") ++
          (Effect.print "\n5️⃣  演示：多语音对比" ::
           demo_multiple_voices svc
             "This is the same text spoken by different voices for comparison.") ++
          [Effect.print "\n🎉 所有演示完成！",
           Effect.print "📁 检查当前目录中生成的音频文件"]

/-- Synthesis calls issued in an effect trace, in order. -/
def genCalls (t : List Effect) : List GenRequest :=
  t.filterMap fun e =>
    match e with
    | Effect.genCall r => some r
    | _ => none

/-- File paths written in an effect trace, in order. -/
def savePaths (t : List Effect) : List String :=
  t.filterMap fun e =>
    match e with
    | Effect.saveFile p _ => some p
    | _ => none

/-- Buffers handed to the complete-audio playback sink, in order. -/
def playbackCalls (t : List Effect) : List (List Nat) :=
  t.filterMap fun e =>
    match e with
    | Effect.playAudio d => some d
    | _ => none

/-- Chunk sequences handed to the streaming playback sink, in order. -/
def sinkFeeds (t : List Effect) : List (List (List Nat)) :=
  t.filterMap fun e =>
    match e with
    | Effect.streamPlay cs => some cs
    | _ => none

/-- Filesystem contents after running an effect trace: the data of the
last write to each path, `none` for paths never written. -/
def fsAfter (t : List Effect) : String → Option (List Nat) :=
  t.foldl
    (fun fs e =>
      match e with
      | Effect.saveFile p d => fun q => if q = p then some d else fs q
      | _ => fs)
    (fun _ => none)

/-- Event in the incremental consumption of a streamed synthesis
response: a chunk arriving from the network, or a chunk being played.
Modelled from the spec's description of the external playback sink
(`stream(…)` pulls each chunk from the generator and plays it as it
arrives). -/
inductive StreamEvent where
  | arrive (c : List Nat)
  | play (c : List Nat)
deriving Repr, DecidableEq

/-- Event trace of the streaming sink consuming a chunk sequence: each
chunk arrives and is then played before the next is pulled. -/
def streamEvents : List (List Nat) → List StreamEvent
  | [] => []
  | c :: rest => StreamEvent.arrive c :: StreamEvent.play c :: streamEvents rest

/-- Chunks played in an event trace, in order. -/
def playedChunks : List StreamEvent → List (List Nat)
  | [] => []
  | StreamEvent.play c :: rest => c :: playedChunks rest
  | StreamEvent.arrive _ :: rest => playedChunks rest

/-- Chunks that have arrived in an event trace, in order. -/
def arrivedChunks : List StreamEvent → List (List Nat)
  | [] => []
  | StreamEvent.arrive c :: rest => c :: arrivedChunks rest
  | StreamEvent.play _ :: rest => arrivedChunks rest

@[simp] theorem genCalls_nil : genCalls [] = [] := rfl

@[simp] theorem genCalls_print (s : String) (t : List Effect) :
    genCalls (Effect.print s :: t) = genCalls t := rfl

@[simp] theorem genCalls_genCall (r : GenRequest) (t : List Effect) :
    genCalls (Effect.genCall r :: t) = r :: genCalls t := rfl

@[simp] theorem genCalls_saveFile (p : String) (d : List Nat) (t : List Effect) :
    genCalls (Effect.saveFile p d :: t) = genCalls t := rfl

@[simp] theorem genCalls_playAudio (d : List Nat) (t : List Effect) :
    genCalls (Effect.playAudio d :: t) = genCalls t := rfl

@[simp] theorem genCalls_streamPlay (cs : List (List Nat)) (t : List Effect) :
    genCalls (Effect.streamPlay cs :: t) = genCalls t := rfl

@[simp] theorem genCalls_append (s t : List Effect) :
    genCalls (s ++ t) = genCalls s ++ genCalls t :=
  List.filterMap_append ..

@[simp] theorem savePaths_nil : savePaths [] = [] := rfl

@[simp] theorem savePaths_print (s : String) (t : List Effect) :
    savePaths (Effect.print s :: t) = savePaths t := rfl

@[simp] theorem savePaths_genCall (r : GenRequest) (t : List Effect) :
    savePaths (Effect.genCall r :: t) = savePaths t := rfl

@[simp] theorem savePaths_saveFile (p : String) (d : List Nat) (t : List Effect) :
    savePaths (Effect.saveFile p d :: t) = p :: savePaths t := rfl

@[simp] theorem savePaths_playAudio (d : List Nat) (t : List Effect) :
    savePaths (Effect.playAudio d :: t) = savePaths t := rfl

@[simp] theorem savePaths_streamPlay (cs : List (List Nat)) (t : List Effect) :
    savePaths (Effect.streamPlay cs :: t) = savePaths t := rfl

@[simp] theorem savePaths_append (s t : List Effect) :
    savePaths (s ++ t) = savePaths s ++ savePaths t :=
  List.filterMap_append ..

@[simp] theorem playbackCalls_nil : playbackCalls [] = [] := rfl

@[simp] theorem playbackCalls_print (s : String) (t : List Effect) :
    playbackCalls (Effect.print s :: t) = playbackCalls t := rfl

@[simp] theorem playbackCalls_genCall (r : GenRequest) (t : List Effect) :
    playbackCalls (Effect.genCall r :: t) = playbackCalls t := rfl

@[simp] theorem playbackCalls_saveFile (p : String) (d : List Nat) (t : List Effect) :
    playbackCalls (Effect.saveFile p d :: t) = playbackCalls t := rfl

@[simp] theorem playbackCalls_playAudio (d : List Nat) (t : List Effect) :
    playbackCalls (Effect.playAudio d :: t) = d :: playbackCalls t := rfl

@[simp] theorem playbackCalls_streamPlay (cs : List (List Nat)) (t : List Effect) :
    playbackCalls (Effect.streamPlay cs :: t) = playbackCalls t := rfl

@[simp] theorem playbackCalls_append (s t : List Effect) :
    playbackCalls (s ++ t) = playbackCalls s ++ playbackCalls t :=
  List.filterMap_append ..

@[simp] theorem sinkFeeds_nil : sinkFeeds [] = [] := rfl

@[simp] theorem sinkFeeds_print (s : String) (t : List Effect) :
    sinkFeeds (Effect.print s :: t) = sinkFeeds t := rfl

@[simp] theorem sinkFeeds_genCall (r : GenRequest) (t : List Effect) :
    sinkFeeds (Effect.genCall r :: t) = sinkFeeds t := rfl

@[simp] theorem sinkFeeds_saveFile (p : String) (d : List Nat) (t : List Effect) :
    sinkFeeds (Effect.saveFile p d :: t) = sinkFeeds t := rfl

@[simp] theorem sinkFeeds_playAudio (d : List Nat) (t : List Effect) :
    sinkFeeds (Effect.playAudio d :: t) = sinkFeeds t := rfl

@[simp] theorem sinkFeeds_streamPlay (cs : List (List Nat)) (t : List Effect) :
    sinkFeeds (Effect.streamPlay cs :: t) = cs :: sinkFeeds t := rfl

@[simp] theorem sinkFeeds_append (s t : List Effect) :
    sinkFeeds (s ++ t) = sinkFeeds s ++ sinkFeeds t :=
  List.filterMap_append ..

/-- The scan of `get_voice_by_name` returns the head of the
case-insensitive filter: the FIRST match wins. -/
theorem findVoice_eq_filter_head (q : String) (vs : List VoiceRecord) :
    findVoice q vs = (vs.filter fun v => pyLower v.name == pyLower q).head? := by
  induction vs with
  | nil => rfl
  | cons v rest ih =>
      by_cases h : pyLower v.name = pyLower q
      · simp [findVoice, h, List.filter_cons]
      · simp [findVoice, h, List.filter_cons, ih]

/-- The scan depends on the query only through its lowercasing. -/
theorem findVoice_congr (q₁ q₂ : String) (hq : pyLower q₁ = pyLower q₂)
    (vs : List VoiceRecord) : findVoice q₁ vs = findVoice q₂ vs := by
  induction vs with
  | nil => rfl
  | cons v rest ih => simp [findVoice, hq, ih]

/-- C2: given any listing returned by the remote voices endpoint,
`get_voice_by_name` is a case-insensitive linear scan returning the
first matching record (the head of the case-insensitive filter);
queries "rachel" and "Rachel" give the same result; with no match it
returns `none` without raising. -/
theorem get_voice_by_name_spec (svc : RemoteService) (vs : List VoiceRecord)
    (h : svc.getAll = Except.ok vs) :
    (∀ q, get_voice_by_name svc q =
        Except.ok ((vs.filter fun v => pyLower v.name == pyLower q).head?)) ∧
    (∀ q₁ q₂, pyLower q₁ = pyLower q₂ →
        get_voice_by_name svc q₁ = get_voice_by_name svc q₂) ∧
    get_voice_by_name svc "rachel" = get_voice_by_name svc "Rachel" ∧
    (∀ q, (∀ v ∈ vs, pyLower v.name ≠ pyLower q) →
        get_voice_by_name svc q = Except.ok none) := by
  have base : ∀ q, get_voice_by_name svc q = Except.ok (findVoice q vs) := by
    intro q
    simp [get_voice_by_name, h]
  refine ⟨?_, ?_, ?_, ?_⟩
  · intro q
    rw [base, findVoice_eq_filter_head]
  · intro q₁ q₂ hq
    rw [base, base, findVoice_congr q₁ q₂ hq]
  · rw [base, base, findVoice_congr "rachel" "Rachel" (by decide)]
  · intro q hq
    rw [base, findVoice_eq_filter_head]
    have : vs.filter (fun v => pyLower v.name == pyLower q) = [] := by
      simp only [List.filter_eq_nil_iff, beq_iff_eq]
      exact hq
    rw [this]
    rfl

/-- Concrete listing used to witness the voice-lookup claim. -/
def rachelVoice : VoiceRecord :=
  { voice_id := "id-1", name := "Rachel", category := "premade", description := none }

/-- Second record of the witness listing. -/
def drewVoice : VoiceRecord :=
  { voice_id := "id-2", name := "Drew", category := "premade", description := some "male voice" }

/-- Oracle whose listing succeeds with two voices and whose synthesis
calls fail; used to witness the lookup claim. -/
def svcListed : RemoteService :=
  { getAll := Except.ok [rachelVoice, drewVoice],
    generate := fun _ => Except.error "offline",
    generateStream := fun _ => Except.error "offline" }

/-- Witness for C2 on a concrete listing: both casings of "rachel" find
the Rachel record, and an absent name yields the sentinel. -/
theorem get_voice_by_name_spec_witness :
    get_voice_by_name svcListed "rachel" = get_voice_by_name svcListed "Rachel" ∧
    get_voice_by_name svcListed "rachel" = Except.ok (some rachelVoice) ∧
    get_voice_by_name svcListed "Santa" = Except.ok none := by
  refine ⟨(get_voice_by_name_spec svcListed [rachelVoice, drewVoice] rfl).2.2.1, ?_, ?_⟩
  · rfl
  · rfl

/-- C8: `advanced_tts_with_settings` forwards every tuning tuple
(including out-of-range values, here arbitrary rationals) unchanged in
the voice settings of the single synthesis request it issues, with no
local normalization or validation. -/
theorem advanced_settings_passthrough (svc : RemoteService) (text voice_id : String)
    (stability similarity_boost style : ℚ) (use_speaker_boost : Bool)
    (output_file : String) :
    genCalls (advanced_tts_with_settings svc text voice_id
        stability similarity_boost style use_speaker_boost output_file)
      = [{ text := text,
           voice := { voice_id := some voice_id,
                      name := none,
                      settings := some { stability := stability,
                                         similarity_boost := similarity_boost,
                                         style := style,
                                         use_speaker_boost := use_speaker_boost } },
           model := "eleven_multilingual_v2",
           stream := false }] := by
  rcases hg : svc.generate (advancedReq text voice_id stability similarity_boost style use_speaker_boost) with e | a <;>
    simp only [advanced_tts_with_settings, hg] <;>
    simp [advancedReq]

/-- Synthesis calls issued by the `demo_multiple_voices` loop: exactly
one default-model call per name, in list order, whatever the outcome of
each call. -/
theorem genCalls_demoLoop (svc : RemoteService) (text : String) (names : List String) :
    ∀ i, genCalls (demoLoop svc text i names) = names.map fun n => basicReq text n := by
  induction names with
  | nil => intro i; rfl
  | cons n rest ih =>
      intro i
      rcases hg : svc.generate (basicReq text n) with e | a <;>
        simp only [demoLoop, demoVoiceStep, hg] <;>
        simp [ih (i + 1)]

/-- Output paths the loop would write for the remaining names, with the
current 1-based index. -/
def expectedPaths : Nat → List String → List String
  | _, [] => []
  | i, v :: rest => demoVoicePath i v :: expectedPaths (i + 1) rest

/-- The paths actually written by the loop form a sublist of the
expected index-and-name-derived paths. -/
theorem savePaths_demoLoop_sublist (svc : RemoteService) (text : String)
    (names : List String) :
    ∀ i, (savePaths (demoLoop svc text i names)).Sublist (expectedPaths i names) := by
  induction names with
  | nil => intro i; simp [demoLoop, expectedPaths]
  | cons n rest ih =>
      intro i
      rcases hg : svc.generate (basicReq text n) with e | a
      · simp only [demoLoop, demoVoiceStep, hg, expectedPaths, List.cons_append,
          savePaths_print, savePaths_genCall, savePaths_append, List.nil_append]
        exact (ih (i + 1)).cons _
      · simp only [demoLoop, demoVoiceStep, hg, expectedPaths, List.cons_append,
          savePaths_print, savePaths_genCall, savePaths_saveFile, savePaths_append,
          List.nil_append]
        exact (ih (i + 1)).cons₂ _

/-- When every synthesis call succeeds, the loop writes exactly the
expected paths. -/
theorem savePaths_demoLoop_all_ok (svc : RemoteService) (text : String)
    (hok : ∀ r, ∃ a, svc.generate r = Except.ok a) (names : List String) :
    ∀ i, savePaths (demoLoop svc text i names) = expectedPaths i names := by
  induction names with
  | nil => intro i; rfl
  | cons n rest ih =>
      intro i
      obtain ⟨a, ha⟩ := hok (basicReq text n)
      simp only [demoLoop, demoVoiceStep, ha, expectedPaths, List.cons_append,
        savePaths_print, savePaths_genCall, savePaths_saveFile, savePaths_append,
        List.nil_append]
      simp [ih (i + 1)]

/-- Oracle whose every call succeeds; used for concrete evaluations. -/
def svcAllOk : RemoteService :=
  { getAll := Except.ok [rachelVoice, drewVoice],
    generate := fun _ => Except.ok [82, 73, 70, 70],
    generateStream := fun _ => Except.ok [[82], [73]] }

/-- Counterexample to C3 as stated: `demo_multiple_voices` takes no
voice-name list; on a concrete all-succeeding oracle it issues 4
synthesis calls — for the hardcoded voices Rachel, Drew, Clyde AND
Paul — not exactly 3. -/
theorem demo_multiple_voices_not_three_calls :
    ((genCalls (demo_multiple_voices svcAllOk "hi")).map fun r => r.voice.name)
      = [some "Rachel", some "Drew", some "Clyde", some "Paul"] ∧
    (genCalls (demo_multiple_voices svcAllOk "hi")).length ≠ 3 := by
  constructor
  · rfl
  · decide

/-- C3 amended: `demo_multiple_voices` iterates the hardcoded list
["Rachel","Drew","Clyde","Paul"]: for every oracle it issues exactly 4
synthesis calls in that order (so the voices after a failing call are
still attempted), every written output path is one of the 4 paths
containing the 1-based index and the lowercased voice name and the
written paths are pairwise distinct, and when every call succeeds all 4
paths are written. -/
theorem demo_multiple_voices_amended (svc : RemoteService) (text : String) :
    genCalls (demo_multiple_voices svc text)
      = [basicReq text "Rachel", basicReq text "Drew",
         basicReq text "Clyde", basicReq text "Paul"] ∧
    (savePaths (demo_multiple_voices svc text)).Sublist
      ["demo_voice_1_rachel.mp3", "demo_voice_2_drew.mp3",
       "demo_voice_3_clyde.mp3", "demo_voice_4_paul.mp3"] ∧
    (savePaths (demo_multiple_voices svc text)).Nodup ∧
    ((∀ r, ∃ a, svc.generate r = Except.ok a) →
        savePaths (demo_multiple_voices svc text)
          = ["demo_voice_1_rachel.mp3", "demo_voice_2_drew.mp3",
             "demo_voice_3_clyde.mp3", "demo_voice_4_paul.mp3"]) := by
  have e4 : expectedPaths 1 demo_voices
      = ["demo_voice_1_rachel.mp3", "demo_voice_2_drew.mp3",
         "demo_voice_3_clyde.mp3", "demo_voice_4_paul.mp3"] := by decide
  have hsub := savePaths_demoLoop_sublist svc text demo_voices 1
  rw [e4] at hsub
  have hsp : savePaths (demo_multiple_voices svc text)
      = savePaths (demoLoop svc text 1 demo_voices) := rfl
  refine ⟨?_, ?_, ?_, ?_⟩
  · simp [demo_multiple_voices, genCalls_demoLoop, demo_voices]
  · rw [hsp]; exact hsub
  · rw [hsp]
    exact hsub.nodup (by decide)
  · intro hok
    rw [hsp, savePaths_demoLoop_all_ok svc text hok demo_voices 1, e4]

/-- Witness for the amended C3 on the all-succeeding oracle: all four
calls succeed and all four distinct paths are written. -/
theorem demo_multiple_voices_amended_witness :
    (∀ r, ∃ a, svcAllOk.generate r = Except.ok a) ∧
    savePaths (demo_multiple_voices svcAllOk "hi")
      = ["demo_voice_1_rachel.mp3", "demo_voice_2_drew.mp3",
         "demo_voice_3_clyde.mp3", "demo_voice_4_paul.mp3"] :=
  ⟨fun _ => ⟨[82, 73, 70, 70], rfl⟩,
   (demo_multiple_voices_amended svcAllOk "hi").2.2.2
     (fun _ => ⟨[82, 73, 70, 70], rfl⟩)⟩

/-- C7: each operation passes its fixed model selector to the remote
call regardless of the other inputs: `basic_tts` and
`demo_multiple_voices` the default "eleven_monolingual_v1" (no
streaming), `advanced_tts_with_settings` "eleven_multilingual_v2" (no
streaming), and `streaming_tts` "eleven_turbo_v2" with streaming
enabled. -/
theorem fixed_model_selectors (svc : RemoteService)
    (text voice_name voice_id output_file : String)
    (stability similarity_boost style : ℚ) (use_speaker_boost : Bool) :
    ((genCalls (basic_tts svc text voice_name output_file)).map fun r => (r.model, r.stream))
      = [("eleven_monolingual_v1", false)] ∧
    ((genCalls (advanced_tts_with_settings svc text voice_id
        stability similarity_boost style use_speaker_boost output_file)).map
          fun r => (r.model, r.stream))
      = [("eleven_multilingual_v2", false)] ∧
    ((genCalls (streaming_tts svc text voice_name)).map fun r => (r.model, r.stream))
      = [("eleven_turbo_v2", true)] ∧
    ((genCalls (demo_multiple_voices svc text)).map fun r => (r.model, r.stream))
      = List.replicate 4 ("eleven_monolingual_v1", false) := by
  refine ⟨?_, ?_, ?_, ?_⟩
  · rcases hg : svc.generate (basicReq text voice_name) with e | a <;>
      simp only [basic_tts, hg] <;> simp [basicReq]
  · rcases hg : svc.generate (advancedReq text voice_id
        stability similarity_boost style use_speaker_boost) with e | a <;>
      simp only [advanced_tts_with_settings, hg] <;> simp [advancedReq]
  · rcases hg : svc.generateStream (streamReq text voice_name) with e | a <;>
      simp only [streaming_tts, hg] <;> simp [streamReq]
  · simp [demo_multiple_voices, genCalls_demoLoop, demo_voices, basicReq,
      List.replicate]

/-- The incremental sink plays exactly the chunks it receives, in
order: nothing dropped, duplicated or reordered. -/
theorem playedChunks_streamEvents (chunks : List (List Nat)) :
    playedChunks (streamEvents chunks) = chunks := by
  induction chunks with
  | nil => rfl
  | cons c rest ih => simp [streamEvents, playedChunks, ih]

/-- In every prefix of the sink's event trace, the chunks played so far
are an initial segment of the chunks that have arrived so far: playback
of a chunk never precedes its arrival, and in particular no playback
happens before the first chunk is available. -/
theorem streamEvents_play_after_arrival (chunks : List (List Nat)) :
    ∀ pre suf, streamEvents chunks = pre ++ suf →
      ∃ t, playedChunks pre ++ t = arrivedChunks pre := by
  induction chunks with
  | nil =>
      intro pre suf h
      simp only [streamEvents] at h
      rcases List.append_eq_nil.mp h.symm with ⟨rfl, -⟩
      exact ⟨[], rfl⟩
  | cons c rest ih =>
      intro pre suf h
      simp only [streamEvents] at h
      rcases pre with - | ⟨e₁, - | ⟨e₂, pre'⟩⟩
      · exact ⟨[], rfl⟩
      · injection h with h₁ h₂
        subst h₁
        exact ⟨[c], rfl⟩
      · injection h with h₁ h₂
        injection h₂ with h₂ h₃
        subst h₁
        subst h₂
        obtain ⟨t, ht⟩ := ih pre' suf h₃
        exact ⟨t, by simp [playedChunks, arrivedChunks, ht]⟩

/-- C5: for every chunk sequence returned by the streaming synthesis
call — including the empty and single-chunk sequences —
`streaming_tts` hands the playback sink exactly that sequence, once and
unchanged; the sink's incremental consumption plays exactly the
received chunks in order, and in every prefix of its event trace the
played chunks form an initial segment of the arrived ones, so playback
never begins before the first chunk is available. -/
theorem streaming_forwards_chunks (svc : RemoteService) (text voice_name : String)
    (chunks : List (List Nat))
    (h : svc.generateStream (streamReq text voice_name) = Except.ok chunks) :
    sinkFeeds (streaming_tts svc text voice_name) = [chunks] ∧
    playedChunks (streamEvents chunks) = chunks ∧
    (∀ pre suf, streamEvents chunks = pre ++ suf →
        ∃ t, playedChunks pre ++ t = arrivedChunks pre) := by
  refine ⟨?_, playedChunks_streamEvents chunks, streamEvents_play_after_arrival chunks⟩
  simp only [streaming_tts, h]
  simp

/-- Oracle whose streaming call returns two chunks; used to witness the
streaming claim. -/
def svcStream : RemoteService :=
  { getAll := Except.ok [],
    generate := fun _ => Except.error "offline",
    generateStream := fun _ => Except.ok [[82], [73]] }

/-- Witness for C5: on a concrete two-chunk stream the sink receives
exactly the two chunks in order. -/
theorem streaming_forwards_chunks_witness :
    svcStream.generateStream (streamReq "hi" "Rachel") = Except.ok [[82], [73]] ∧
    sinkFeeds (streaming_tts svcStream "hi" "Rachel") = [[[82], [73]]] :=
  ⟨rfl, (streaming_forwards_chunks svcStream "hi" "Rachel" [[82], [73]] rfl).1⟩

/-- Byte buffer `b"RIFF..."`: the ASCII codes of R, I, F, F and three
dots. -/
def riffBytes : List Nat := [82, 73, 70, 70, 46, 46, 46]

/-- C6: with credential "test-key" construction succeeds; when the
remote call for text "Hello" and voice "Rachel" returns the RIFF
buffer, `basic_tts` targeting "out.mp3" leaves exactly those bytes at
"out.mp3" and invokes the playback sink exactly once, with that same
buffer. -/
theorem basic_tts_end_to_end (svc : RemoteService)
    (h : svc.generate (basicReq "Hello" "Rachel") = Except.ok riffBytes) :
    demoInit (some "test-key") none = Except.ok ⟨"test-key"⟩ ∧
    fsAfter (basic_tts svc "Hello" "Rachel" "out.mp3") "out.mp3" = some riffBytes ∧
    playbackCalls (basic_tts svc "Hello" "Rachel" "out.mp3") = [riffBytes] := by
  refine ⟨rfl, ?_, ?_⟩
  · simp only [basic_tts, h]
    simp [fsAfter]
  · simp only [basic_tts, h]
    simp

/-- Oracle whose synthesis always returns the RIFF buffer; used to
witness the end-to-end claim. -/
def svcRiff : RemoteService :=
  { getAll := Except.ok [],
    generate := fun _ => Except.ok riffBytes,
    generateStream := fun _ => Except.error "offline" }

/-- Witness for C6 on the concrete RIFF oracle. -/
theorem basic_tts_end_to_end_witness :
    svcRiff.generate (basicReq "Hello" "Rachel") = Except.ok riffBytes ∧
    fsAfter (basic_tts svcRiff "Hello" "Rachel" "out.mp3") "out.mp3" = some riffBytes :=
  ⟨rfl, (basic_tts_end_to_end svcRiff rfl).2.1⟩

/-- C4: when the underlying synthesis call fails, `basic_tts` catches
the exception at its own boundary: its trace is the two announcement
lines, the attempted call, and the logged error — no file write, no
playback, and no propagated exception; consequently a full `main` run
whose listing succeeds but whose every synthesis call fails still
reaches the final completion message. -/
theorem basic_tts_failure_contained (svc : RemoteService) (k : String)
    (vs : List VoiceRecord) (hk : k ≠ "") (hlist : svc.getAll = Except.ok vs)
    (hfail : ∀ r, ∃ e, svc.generate r = Except.error e) :
    (∀ text voice_name output_file, ∃ e,
        basic_tts svc text voice_name output_file =
          [Effect.print ("🔊 基础文本转语音: \x27" ++ text.take 50 ++ "...\x27"),
           Effect.print ("📢 使用语音: " ++ voice_name),
           Effect.genCall (basicReq text voice_name),
           Effect.print ("❌ 错误: " ++ e)] ∧
        savePaths (basic_tts svc text voice_name output_file) = [] ∧
        playbackCalls (basic_tts svc text voice_name output_file) = []) ∧
    Effect.print "\n🎉 所有演示完成！" ∈ mainDemo svc (some k) := by
  constructor
  · intro text voice_name output_file
    obtain ⟨e, he⟩ := hfail (basicReq text voice_name)
    refine ⟨e, ?_, ?_, ?_⟩ <;> simp only [basic_tts, he] <;> simp
  · have hinit : demoInit none (some k) = Except.ok ⟨k⟩ := by
      simp [demoInit, hk]
    simp only [mainDemo, hinit, list_voices, hlist]
    rcases vs with - | ⟨v, rest⟩ <;> simp

/-- Oracle whose listing succeeds with an empty list and whose every
synthesis call fails; the fake always-failing remote client of the
spec's test description. -/
def svcFail : RemoteService :=
  { getAll := Except.ok [],
    generate := fun _ => Except.error "boom",
    generateStream := fun _ => Except.error "boom" }

/-- Witness for C4: with the always-failing synthesis oracle the full
run still reaches the completion message. -/
theorem basic_tts_failure_contained_witness :
    ("test-key" ≠ ("" : String)) ∧ svcFail.getAll = Except.ok [] ∧
    Effect.print "\n🎉 所有演示完成！" ∈ mainDemo svcFail (some "test-key") :=
  ⟨by decide, rfl,
   (basic_tts_failure_contained svcFail "test-key" [] (by decide) rfl
      (fun _ => ⟨"boom", rfl⟩)).2⟩
